import Mathlib

/-
Verification of the RLM REPL orchestrator in `src/app.py` (class
`StreamlitRLM_REPL`).  The orchestration loop `completion`, the code-result
folding `_process_code_with_logging` and the setup step `setup_context` are
embedded as pure Lean functions.  External collaborators that live in the
`rlm` package (the LLM transport, code-block extraction, final-answer
detection, prompt construction and the sandbox execution primitive) are
abstract parameters collected in a `Collabs` structure; the context packager
`convert_context_for_repl`, whose behaviour the claims need, is modelled
from the specification since its source is not part of this repository.
Python strings are Lean `String`s (a list of characters), Python slicing
`s[:n]` is `pySlice`, and Python truthiness of the final-answer value is
`pyTruthy` (both `None` and the empty string are falsy).
A run is summarised by a `RunOutcome`: the returned answer or the raised
error, the persisted message list, the stored query and a trace of events
(root-model calls, sandbox executions, logger calls) in program order.
-/

set_option maxRecDepth 8192

namespace RlmDemo

/-- Chat message, the Python dict with keys role and content used throughout
`app.py`. -/
structure Message where
  role : String
  content : String
deriving DecidableEq, Repr

/-- Result of executing one code fragment in the REPL: the fields of the
`rlm.repl` execution result that `app.py` reads (stdout, stderr,
execution time).  The elapsed time is abstracted to a natural number. -/
structure ExecutionResult where
  stdout : String
  stderr : String
  execution_time : Nat
deriving DecidableEq, Repr

/-- Python string slicing `s[:n]`: the first `n` characters of `s` (all of
`s` when it is shorter). -/
def pySlice (s : String) (n : Nat) : String := ⟨s.data.take n⟩

/-- Line 224 of `app.py`:
`result.stdout[:2000] if len(result.stdout) > 2000 else result.stdout`. -/
def truncated_stdout (s : String) : String :=
  if 2000 < s.length then pySlice s 2000 else s

/-- Line 225 of `app.py`:
`result.stderr[:500] if len(result.stderr) > 500 else result.stderr`. -/
def truncated_stderr (s : String) : String :=
  if 500 < s.length then pySlice s 500 else s

/-- Lines 227-230 of `app.py`: the content of the user message folded into
the conversation after a fragment executes, an f-string labelling the
truncated stdout and the truncated stderr. -/
def tool_response_content (stdout stderr : String) : String :=
  "REPL environment returned:\nstdout: " ++ truncated_stdout stdout
    ++ "\nstderr: " ++ truncated_stderr stderr

/-- The context argument of `completion`, typed in `app.py` as
`List[str] | str | List[Dict[str, str]]`; the fourth constructor stands for
any other runtime shape handed to the packager. -/
inductive ContextInput where
  | ofString (s : String)
  | ofStrings (l : List String)
  | ofMessages (l : List Message)
  | unrecognized (description : String)
deriving DecidableEq, Repr

/-- The structured half of the packaged context (`context_data` in
`app.py`): Python `None` for a flat string, an array of fragments, or an
array of message objects. -/
inductive Structured where
  | noContext
  | fragments (l : List String)
  | messages (l : List Message)
deriving DecidableEq, Repr

/-- Rendering of one message in the display form of a packaged message
list: the role upper-cased, a colon, the content. -/
def render_message (m : Message) : String :=
  m.role.toUpper ++ ": " ++ m.content

/-- Modelled from the spec: `utils.convert_context_for_repl` lives in the
`rlm` package, which is not among this repository's sources.  Following
section 4.4 of the specification: a plain text input becomes
`structured=None, display=text unchanged`; a sequence of text fragments
becomes an array plus the fragments joined with a visible separator; a
sequence of role/content messages becomes an array plus each message
rendered as `ROLE: content`, newline-joined; any other shape fails fast
with a descriptive error. -/
def convert_context_for_repl :
    ContextInput → Except String (Structured × String)
  | .ofString s => .ok (.noContext, s)
  | .ofStrings l => .ok (.fragments l, String.intercalate ("\n\n") l)
  | .ofMessages l =>
      .ok (.messages l, String.intercalate ("\n") (l.map render_message))
  | .unrecognized d => .error ("Unsupported context type: " ++ d)

/-- Observable events of a run, in program order: a root-model call with
the exact message list sent and the response received, a sandbox execution
of one code fragment, and the two logger calls the claims mention. -/
inductive Event where
  | llmCall (input : List Message) (response : String)
  | codeExec (code : String) (result : ExecutionResult)
  | logQueryStart (query : String)
  | logFinalAnswer (answer : String)
deriving DecidableEq, Repr

/-- Recogniser for root-model call events. -/
def isLlmCall : Event → Bool
  | .llmCall _ _ => true
  | _ => false

/-- Number of root-model calls recorded in a trace. -/
def llmCallCount (t : List Event) : Nat := t.countP isLlmCall

/-- The external collaborators of `StreamlitRLM_REPL`, abstract because
their sources live in the `rlm` package: the LLM transport
(`self.llm.completion`), code-block extraction (`utils.find_code_blocks`,
returning Python `None` or a list), final-answer detection
(`utils.check_for_final_answer`), per-turn prompt construction
(`next_action_prompt(query, iteration, final_answer)`), the initial system
prompt (`build_system_prompt()`), sandbox construction (`REPLEnv(...)`),
the sandbox execution primitive (`repl_env.code_execution`), and
`DEFAULT_QUERY`. -/
structure Collabs (Env : Type) where
  llm_completion : List Message → String
  find_code_blocks : String → Option (List String)
  check_for_final_answer : String → Env → Option String
  next_action_prompt : Option String → Nat → Bool → Message
  build_system_prompt : List Message
  repl_env_init : Structured → String → Env
  code_execution : Env → String → Env × ExecutionResult
  DEFAULT_QUERY : String

/-- Python truthiness of the final-answer value at line 198 of `app.py`:
`None` and the empty string are falsy, every other string is truthy. -/
def pyTruthy : Option String → Bool
  | none => false
  | some s => !(s == "")

/-- The for-loop of `_process_code_with_logging` (lines 212-231): execute
each fragment in source order against the threaded sandbox state, and for
each fragment record the execution event and build one user message whose
content is `tool_response_content` of that fragment's captured streams.
Returns the final sandbox state, the user messages in order, and the
execution events in order. -/
def exec_blocks {Env : Type} (C : Collabs Env) :
    Env → List String → Env × List Message × List Event
  | env, [] => (env, [], [])
  | env, code :: rest =>
    let r := C.code_execution env code
    let eb := exec_blocks C r.1 rest
    (eb.1,
      ⟨"user", tool_response_content r.2.stdout r.2.stderr⟩ :: eb.2.1,
      Event.codeExec code r.2 :: eb.2.2)

/-- Lines 207-233 of `app.py`, `_process_code_with_logging`: append the raw
response as an assistant message, then execute the fragments, appending one
user message per fragment.  Returns the new message list, the new sandbox
state and the execution events. -/
def process_code_with_logging {Env : Type} (C : Collabs Env)
    (response : String) (messages : List Message) (env : Env)
    (code_blocks : List String) : List Message × Env × List Event :=
  let eb := exec_blocks C env code_blocks
  (messages ++ ⟨"assistant", response⟩ :: eb.2.1, eb.1, eb.2.2)

/-- Result of one iteration of the loop in `completion`: the message list
sent to the root model, the response, the persisted messages and sandbox
state after processing the response, and the events of the iteration. -/
structure IterOut (Env : Type) where
  llmInput : List Message
  response : String
  msgs : List Message
  env : Env
  events : List Event

/-- One iteration of the loop at lines 182-194 of `app.py`, up to but not
including the final-answer check: request a completion over the persisted
messages plus one freshly built next-action instruction (the instruction is
not persisted), then either fold in code results
(`_process_code_with_logging`) or append the response wrapped with the
framing text `You responded with:` as an assistant message. -/
def loop_iteration {Env : Type} (C : Collabs Env) (query : Option String)
    (iteration : Nat) (msgs : List Message) (env : Env) : IterOut Env :=
  let input := msgs ++ [C.next_action_prompt query iteration false]
  let response := C.llm_completion input
  match C.find_code_blocks response with
  | some code_blocks =>
    let p := process_code_with_logging C response msgs env code_blocks
    ⟨input, response, p.1, p.2.1, Event.llmCall input response :: p.2.2⟩
  | none =>
    ⟨input, response,
      msgs ++ [⟨"assistant", "You responded with:\n" ++ response⟩], env,
      [Event.llmCall input response]⟩

/-- Outcome of the bounded loop: `res` is the final answer if one was
detected (Python `return final_answer`), otherwise `none` when the range is
exhausted; plus the persisted messages, sandbox state and events. -/
structure LoopOut (Env : Type) where
  res : Option String
  msgs : List Message
  env : Env
  events : List Event

/-- The loop `for iteration in range(self._max_iterations)` of
`completion` (lines 182-200), with the remaining iteration count as fuel:
run one iteration, check `utils.check_for_final_answer(response,
self.repl_env, None)` on the processed state, return the answer if it is
truthy, otherwise continue with the next iteration index. -/
def runLoop {Env : Type} (C : Collabs Env) (query : Option String) :
    Nat → Nat → List Message → Env → LoopOut Env
  | 0, _, msgs, env => ⟨none, msgs, env, []⟩
  | fuel + 1, iteration, msgs, env =>
    let it := loop_iteration C query iteration msgs env
    let final_answer := C.check_for_final_answer it.response it.env
    if pyTruthy final_answer then
      ⟨some (final_answer.getD ("")), it.msgs, it.env,
        it.events ++ [Event.logFinalAnswer (final_answer.getD (""))]⟩
    else
      let out := runLoop C query fuel (iteration + 1) it.msgs it.env
      ⟨out.res, out.msgs, out.env, it.events ++ out.events⟩

/-- Faults `completion` can raise: the packager's descriptive error on an
unrecognized context shape, and the Python `NameError` hit at line 202 when
the loop body never ran and the name `iteration` is unbound. -/
inductive RunError where
  | contextError (message : String)
  | nameError (name : String)
deriving DecidableEq, Repr

/-- Summary of one `completion` run: the returned answer or raised error,
the persisted message list `self.messages`, the stored query `self.query`,
the event trace, and the sandbox state (absent when packaging failed before
the sandbox was built). -/
structure RunOutcome (Env : Type) where
  result : Except RunError String
  messages : List Message
  query : String
  trace : List Event
  env : Option Env

/-- Lines 159-205 of `app.py`: `setup_context` followed by `completion`.
Setup defaults a missing query to `DEFAULT_QUERY` into a local variable
(stored as `self.query` and logged), builds the system prompt, packages the
context (propagating the packager's fault), and builds the sandbox.  The
loop then runs with the original `query` argument — not the defaulted
local — for `max_iterations` iterations; if no truthy final answer is
detected, the forced instruction `next_action_prompt(query, iteration,
final_answer=True)` is appended to the persisted messages (evaluating the
loop variable `iteration`, unbound when the loop never ran) and one last
completion over the persisted messages is returned verbatim. -/
def completion {Env : Type} (C : Collabs Env) (max_iterations : Nat)
    (context : ContextInput) (query : Option String) : RunOutcome Env :=
  let q := query.getD C.DEFAULT_QUERY
  let ev0 : List Event := [Event.logQueryStart q]
  let msgs0 := C.build_system_prompt
  match convert_context_for_repl context with
  | .error e => ⟨.error (.contextError e), msgs0, q, ev0, none⟩
  | .ok (context_data, context_str) =>
    let env0 := C.repl_env_init context_data context_str
    let out := runLoop C query max_iterations 0 msgs0 env0
    match out.res with
    | some a => ⟨.ok a, out.msgs, q, ev0 ++ out.events, some out.env⟩
    | none =>
      if max_iterations = 0 then
        ⟨.error (.nameError "iteration"), out.msgs, q, ev0 ++ out.events,
          some out.env⟩
      else
        let forced := C.next_action_prompt query (max_iterations - 1) true
        let msgs1 := out.msgs ++ [forced]
        let a := C.llm_completion msgs1
        ⟨.ok a, msgs1, q,
          ev0 ++ out.events ++ [Event.llmCall msgs1 a, Event.logFinalAnswer a],
          some out.env⟩

/-- An event is either not a root-model call, or its input is some message
list extended with one message built by `next_action_prompt` applied to the
given query value. -/
def instructionShaped {Env : Type} (C : Collabs Env) (query : Option String)
    (e : Event) : Prop :=
  ∀ input response, e = Event.llmCall input response →
    ∃ ms j b, input = ms ++ [C.next_action_prompt query j b]

/-- Concrete collaborators over a trivial sandbox for evaluating the run on
small inputs: every response is prose (no code blocks), no final answer is
ever detected, and the per-turn instruction records the iteration index and
the forcing flag. -/
def proseCollabs : Collabs Unit :=
  ⟨fun _ => "resp",
   fun _ => none,
   fun _ _ => none,
   fun _ i b => ⟨"user", (if b then "forced " else "next ") ++ toString i⟩,
   [⟨"system", "sys"⟩],
   fun _ _ => (),
   fun e _ => (e, ⟨"", "", 0⟩),
   "dq"⟩

/-- Concrete collaborators where the final-answer check fires on every
response. -/
def finalCollabs : Collabs Unit :=
  ⟨fun _ => "resp",
   fun _ => none,
   fun _ _ => some ("ans"),
   fun _ i b => ⟨"user", (if b then "forced " else "next ") ++ toString i⟩,
   [⟨"system", "sys"⟩],
   fun _ _ => (),
   fun e _ => (e, ⟨"", "", 0⟩),
   "dq"⟩

/-- Concrete collaborators where every response carries two code blocks and
execution produces fixed short streams. -/
def codeCollabs : Collabs Unit :=
  ⟨fun _ => "resp",
   fun _ => some (["print(1)", "print(2)"]),
   fun _ _ => none,
   fun _ i b => ⟨"user", (if b then "forced " else "next ") ++ toString i⟩,
   [⟨"system", "sys"⟩],
   fun _ _ => (),
   fun e c => (e, ⟨"out " ++ c, "err", 0⟩),
   "dq"⟩

/-- A captured stdout of 2001 identical characters, one character over the
cap. -/
def cex_stdout : String := ⟨List.replicate 2001 'a'⟩

theorem string_length_zero_eq_empty {s : String} (h : s.length = 0) :
    s = "" := by
  cases s with
  | mk data =>
    simp [String.length] at h
    simp [h]

theorem string_append_empty (s : String) : s ++ ("") = s := by
  cases s with
  | mk data =>
    show String.mk (data ++ []) = String.mk data
    rw [List.append_nil]

theorem append_eq_self_marker {a m : String} (h : a ++ m = a) : m = "" := by
  have hl := congrArg String.length h
  rw [String.length_append] at hl
  exact string_length_zero_eq_empty (by omega)

theorem pySlice_length (s : String) (n : Nat) (h : n ≤ s.length) :
    (pySlice s n).length = n := by
  show (s.data.take n).length = n
  rw [List.length_take]
  have hs : s.length = s.data.length := rfl
  omega

theorem cex_stdout_length : cex_stdout.length = 2001 := by
  show (List.replicate 2001 'a').length = 2001
  rw [List.length_replicate]

/-- C1: the claim asserts that a captured stdout longer than 2000
characters is represented in the folded user message as the first 2000
characters PLUS a truncation marker.  At the concrete captured stdout
`cex_stdout` (2001 characters) and empty stderr, the content of the folded
user message is exactly the label, the first 2000 characters, and the
stderr label — there is no non-empty marker between the truncated stdout
and the rest of the message, refuting the claim as stated. -/
theorem c1_counterexample :
    tool_response_content cex_stdout ("") =
      "REPL environment returned:\nstdout: " ++ pySlice cex_stdout 2000
        ++ "\nstderr: " ∧
    ¬ ∃ marker : String, marker ≠ "" ∧
      tool_response_content cex_stdout ("") =
        "REPL environment returned:\nstdout: " ++ pySlice cex_stdout 2000
          ++ marker ++ "\nstderr: " := by
  have hfirst : tool_response_content cex_stdout ("") =
      "REPL environment returned:\nstdout: " ++ pySlice cex_stdout 2000
        ++ "\nstderr: " := by
    unfold tool_response_content truncated_stdout truncated_stderr
    rw [if_pos (by rw [cex_stdout_length]; omega)]
    rw [if_neg (by decide)]
    rw [string_append_empty]
  refine ⟨hfirst, ?_⟩
  rintro ⟨m, hm, he⟩
  rw [hfirst] at he
  have hl := congrArg String.length he
  simp only [String.length_append] at hl
  exact hm (string_length_zero_eq_empty (by omega))

/-- C1 (amended): a captured stdout longer than 2000 characters is folded
into the conversation as exactly its first 2000 characters with NO
truncation marker appended, a captured stderr longer than 500 characters as
exactly its first 500 characters with no marker, and streams at or under
their caps are included unchanged; the folded user message labels the two
truncated streams. -/
theorem c1_truncation_exact_no_marker (stdout stderr : String) :
    (stdout.length ≤ 2000 → truncated_stdout stdout = stdout) ∧
    (2000 < stdout.length →
      truncated_stdout stdout = pySlice stdout 2000 ∧
      (truncated_stdout stdout).length = 2000 ∧
      ¬ ∃ marker : String, marker ≠ "" ∧
        truncated_stdout stdout = pySlice stdout 2000 ++ marker) ∧
    (stderr.length ≤ 500 → truncated_stderr stderr = stderr) ∧
    (500 < stderr.length →
      truncated_stderr stderr = pySlice stderr 500 ∧
      (truncated_stderr stderr).length = 500 ∧
      ¬ ∃ marker : String, marker ≠ "" ∧
        truncated_stderr stderr = pySlice stderr 500 ++ marker) ∧
    tool_response_content stdout stderr =
      "REPL environment returned:\nstdout: " ++ truncated_stdout stdout
        ++ "\nstderr: " ++ truncated_stderr stderr := by
  refine ⟨?_, ?_, ?_, ?_, rfl⟩
  · intro h
    unfold truncated_stdout
    rw [if_neg (by omega)]
  · intro h
    have heq : truncated_stdout stdout = pySlice stdout 2000 := by
      unfold truncated_stdout
      rw [if_pos h]
    refine ⟨heq, by rw [heq]; exact pySlice_length stdout 2000 (by omega), ?_⟩
    rintro ⟨m, hm, he⟩
    rw [heq] at he
    exact hm (append_eq_self_marker he.symm)
  · intro h
    unfold truncated_stderr
    rw [if_neg (by omega)]
  · intro h
    have heq : truncated_stderr stderr = pySlice stderr 500 := by
      unfold truncated_stderr
      rw [if_pos h]
    refine ⟨heq, by rw [heq]; exact pySlice_length stderr 500 (by omega), ?_⟩
    rintro ⟨m, hm, he⟩
    rw [heq] at he
    exact hm (append_eq_self_marker he.symm)

/-- Witness for the amended C1 theorem: a short stdout is included
unchanged, and an over-cap stderr is cut to exactly its first 500
characters. -/
theorem c1_truncation_exact_no_marker_witness :
    truncated_stdout ("out") = "out" ∧
    truncated_stderr cex_stdout = pySlice cex_stdout 500 :=
  ⟨(c1_truncation_exact_no_marker ("out") cex_stdout).1 (by decide),
   ((c1_truncation_exact_no_marker ("out") cex_stdout).2.2.2.1
     (by rw [cex_stdout_length]; omega)).1⟩

theorem llmCallCount_nil : llmCallCount [] = 0 := rfl

theorem llmCallCount_append (a b : List Event) :
    llmCallCount (a ++ b) = llmCallCount a + llmCallCount b :=
  List.countP_append isLlmCall a b

theorem exec_blocks_spec {Env : Type} (C : Collabs Env) :
    ∀ (bs : List String) (env : Env), ∃ rs : List ExecutionResult,
      rs.length = bs.length ∧
      (exec_blocks C env bs).2.1 =
        rs.map (fun r =>
          Message.mk ("user") (tool_response_content r.stdout r.stderr)) ∧
      (exec_blocks C env bs).2.2 =
        List.zipWith (fun c r => Event.codeExec c r) bs rs := by
  intro bs
  induction bs with
  | nil => intro env; exact ⟨[], rfl, rfl, rfl⟩
  | cons code rest ih =>
    intro env
    obtain ⟨rs, h1, h2, h3⟩ := ih (C.code_execution env code).1
    refine ⟨(C.code_execution env code).2 :: rs, by simp [h1], ?_, ?_⟩
    · simp only [exec_blocks]
      simp [h2]
    · simp only [exec_blocks]
      simp [h3]

theorem exec_blocks_no_llmCall {Env : Type} (C : Collabs Env) :
    ∀ (bs : List String) (env : Env),
      llmCallCount (exec_blocks C env bs).2.2 = 0 := by
  intro bs
  induction bs with
  | nil => intro env; rfl
  | cons code rest ih =>
    intro env
    simp only [exec_blocks]
    simp only [llmCallCount, List.countP_cons] at *
    simp [isLlmCall, ih]

theorem exec_blocks_events_are_exec {Env : Type} (C : Collabs Env) :
    ∀ (bs : List String) (env : Env),
      ∀ e ∈ (exec_blocks C env bs).2.2, ∃ c r, e = Event.codeExec c r := by
  intro bs
  induction bs with
  | nil => intro env e he; simp [exec_blocks] at he
  | cons code rest ih =>
    intro env e he
    simp only [exec_blocks, List.mem_cons] at he
    rcases he with he | he
    · exact ⟨code, (C.code_execution env code).2, he⟩
    · exact ih (C.code_execution env code).1 e he

theorem loop_iteration_request {Env : Type} (C : Collabs Env)
    (query : Option String) (iteration : Nat) (msgs : List Message)
    (env : Env) :
    (loop_iteration C query iteration msgs env).llmInput =
      msgs ++ [C.next_action_prompt query iteration false] ∧
    (loop_iteration C query iteration msgs env).response =
      C.llm_completion (msgs ++ [C.next_action_prompt query iteration false]) := by
  unfold loop_iteration
  cases h : C.find_code_blocks
      (C.llm_completion (msgs ++ [C.next_action_prompt query iteration false])) <;>
    simp [h]

theorem loop_iteration_events {Env : Type} (C : Collabs Env)
    (query : Option String) (iteration : Nat) (msgs : List Message)
    (env : Env) :
    ∃ tail,
      (loop_iteration C query iteration msgs env).events =
        Event.llmCall (loop_iteration C query iteration msgs env).llmInput
          (loop_iteration C query iteration msgs env).response :: tail ∧
      llmCallCount tail = 0 ∧
      ∀ e ∈ tail, ∃ c r, e = Event.codeExec c r := by
  unfold loop_iteration
  cases h : C.find_code_blocks
      (C.llm_completion (msgs ++ [C.next_action_prompt query iteration false])) with
  | none =>
    refine ⟨[], ?_, rfl, by simp⟩
    simp [h]
  | some bs =>
    refine ⟨(exec_blocks C env bs).2.2, ?_, exec_blocks_no_llmCall C bs env,
      exec_blocks_events_are_exec C bs env⟩
    simp [h, process_code_with_logging]

theorem loop_iteration_llmCallCount {Env : Type} (C : Collabs Env)
    (query : Option String) (iteration : Nat) (msgs : List Message)
    (env : Env) :
    llmCallCount (loop_iteration C query iteration msgs env).events = 1 := by
  obtain ⟨tail, hev, hc, _⟩ := loop_iteration_events C query iteration msgs env
  rw [hev]
  simp only [llmCallCount, List.countP_cons, isLlmCall] at hc ⊢
  simp only [if_true]
  omega

theorem runLoop_res_none_count {Env : Type} (C : Collabs Env)
    (query : Option String) :
    ∀ (fuel iteration : Nat) (msgs : List Message) (env : Env),
      (runLoop C query fuel iteration msgs env).res = none →
      llmCallCount (runLoop C query fuel iteration msgs env).events = fuel := by
  intro fuel
  induction fuel with
  | zero => intro iteration msgs env _; rfl
  | succ fuel ih =>
    intro iteration msgs env h
    simp only [runLoop] at h ⊢
    by_cases hf : pyTruthy (C.check_for_final_answer
        (loop_iteration C query iteration msgs env).response
        (loop_iteration C query iteration msgs env).env) = true
    · simp [hf] at h
    · simp only [hf, if_neg, Bool.not_eq_true, ite_false] at h ⊢
      rw [llmCallCount_append, loop_iteration_llmCallCount,
        ih _ _ _ h]
      omega

theorem runLoop_succ_events {Env : Type} (C : Collabs Env)
    (query : Option String) (fuel iteration : Nat) (msgs : List Message)
    (env : Env) :
    ∃ rest,
      (runLoop C query (fuel + 1) iteration msgs env).events =
        (loop_iteration C query iteration msgs env).events ++ rest := by
  simp only [runLoop]
  by_cases hf : pyTruthy (C.check_for_final_answer
      (loop_iteration C query iteration msgs env).response
      (loop_iteration C query iteration msgs env).env) = true <;>
    simp [hf]

theorem runLoop_events_shaped {Env : Type} (C : Collabs Env)
    (query : Option String) :
    ∀ (fuel iteration : Nat) (msgs : List Message) (env : Env),
      ∀ e ∈ (runLoop C query fuel iteration msgs env).events,
        instructionShaped C query e := by
  intro fuel
  induction fuel with
  | zero => intro iteration msgs env e he; simp [runLoop] at he
  | succ fuel ih =>
    intro iteration msgs env e he
    have hstep : ∀ x ∈ (loop_iteration C query iteration msgs env).events,
        instructionShaped C query x := by
      obtain ⟨tail, hev, _, htail⟩ := loop_iteration_events C query iteration msgs env
      intro x hx
      rw [hev, List.mem_cons] at hx
      rcases hx with hx | hx
      · intro input response heq
        subst hx
        obtain ⟨hin, _⟩ := loop_iteration_request C query iteration msgs env
        cases heq
        exact ⟨msgs, iteration, false, hin⟩
      · obtain ⟨c, r, hcr⟩ := htail x hx
        intro input response heq
        rw [hcr] at heq
        cases heq
    simp only [runLoop] at he
    by_cases hf : pyTruthy (C.check_for_final_answer
        (loop_iteration C query iteration msgs env).response
        (loop_iteration C query iteration msgs env).env) = true
    · simp only [hf, if_pos] at he
      simp only [List.mem_append, List.mem_singleton] at he
      rcases he with he | he
      · exact hstep e he
      · intro input response heq
        rw [he] at heq
        cases heq
    · simp only [hf, if_neg, Bool.not_eq_true, ite_false] at he
      simp only [List.mem_append] at he
      rcases he with he | he
      · exact hstep e he
      · exact ih _ _ _ e he

theorem wrap_ne (s : String) : ("You responded with:\n" ++ s) ≠ s := by
  intro h
  have hl := congrArg String.length h
  rw [String.length_append] at hl
  have h20 : ("You responded with:\n" : String).length = 20 := by decide
  omega

/-- C2: for every well-formed context, every query and every behaviour of
the collaborators — in particular every sequence of root-model responses,
including ones that never carry a final-answer marker — a run with at
least one configured iteration terminates and returns a text answer: the
embedded `completion` is a total function whose result is `Except.ok` of
some string. -/
theorem c2_liveness {Env : Type} (C : Collabs Env) (max_iterations : Nat)
    (context : ContextInput) (query : Option String)
    (p : Structured × String)
    (hctx : convert_context_for_repl context = .ok p)
    (hpos : 1 ≤ max_iterations) :
    ∃ answer,
      (completion C max_iterations context query).result = .ok answer := by
  obtain ⟨context_data, context_str⟩ := p
  simp only [completion, hctx]
  cases hres : (runLoop C query max_iterations 0 C.build_system_prompt
      (C.repl_env_init context_data context_str)).res with
  | some a => exact ⟨a, rfl⟩
  | none =>
    rw [if_neg (by omega)]
    exact ⟨_, rfl⟩

/-- Witness for C2: a concrete run with prose-only responses and no final
answer still returns an answer. -/
theorem c2_liveness_witness :
    ∃ answer, (completion proseCollabs 1 (ContextInput.ofString ("ctx"))
      (some ("q"))).result = .ok answer :=
  c2_liveness proseCollabs 1 (ContextInput.ofString ("ctx")) (some ("q"))
    (Structured.noContext, "ctx") rfl (by decide)

/-- C3: in a run where the loop detects no final answer, the loop makes
exactly `max_iterations` root-model calls, then exactly one forced final
instruction `next_action_prompt query (max_iterations - 1) true` is
appended to the persisted conversation, exactly one additional root-model
completion is issued over that conversation, and its text is returned
verbatim; the whole run performs `max_iterations + 1` root-model calls. -/
theorem c3_forced_finalize {Env : Type} (C : Collabs Env)
    (max_iterations : Nat) (context : ContextInput) (query : Option String)
    (context_data : Structured) (context_str : String)
    (hctx : convert_context_for_repl context = .ok (context_data, context_str))
    (hpos : 1 ≤ max_iterations)
    (hnone : (runLoop C query max_iterations 0 C.build_system_prompt
      (C.repl_env_init context_data context_str)).res = none) :
    (completion C max_iterations context query).result =
      .ok (C.llm_completion
        ((runLoop C query max_iterations 0 C.build_system_prompt
            (C.repl_env_init context_data context_str)).msgs ++
          [C.next_action_prompt query (max_iterations - 1) true])) ∧
    (completion C max_iterations context query).messages =
      (runLoop C query max_iterations 0 C.build_system_prompt
          (C.repl_env_init context_data context_str)).msgs ++
        [C.next_action_prompt query (max_iterations - 1) true] ∧
    llmCallCount (runLoop C query max_iterations 0 C.build_system_prompt
        (C.repl_env_init context_data context_str)).events = max_iterations ∧
    llmCallCount (completion C max_iterations context query).trace =
      max_iterations + 1 := by
  have hcount := runLoop_res_none_count C query max_iterations 0
    C.build_system_prompt (C.repl_env_init context_data context_str) hnone
  simp only [completion, hctx]
  rw [hnone]
  rw [if_neg (by omega)]
  refine ⟨rfl, rfl, hcount, ?_⟩
  rw [llmCallCount_append, llmCallCount_append, hcount]
  have h1 : llmCallCount [Event.logQueryStart (query.getD C.DEFAULT_QUERY)] = 0 := rfl
  rw [h1]
  have h2 : ∀ a b c, llmCallCount [Event.llmCall a b, Event.logFinalAnswer c] = 1 :=
    fun _ _ _ => rfl
  rw [h2]
  omega

/-- Witness for C3, the scenario with `max_iterations = 1` and a model
that never emits a final-answer marker: one loop call plus one forced
call. -/
theorem c3_forced_finalize_witness :
    llmCallCount (completion proseCollabs 1 (ContextInput.ofString ("ctx"))
      (some ("q"))).trace = 1 + 1 :=
  (c3_forced_finalize proseCollabs 1 (ContextInput.ofString ("ctx"))
    (some ("q")) Structured.noContext ("ctx") rfl (by decide)
    (by decide)).2.2.2

/-- C4: the final-answer check of an iteration runs on the response and on
the sandbox state as left by the processing step of that same iteration
(so also in iterations that executed code); when it is truthy the loop
returns that answer immediately: the result does not depend on the
remaining fuel, no further iterations run, and the loop's whole event list
contains exactly the one root-model call of this iteration. -/
theorem c4_final_answer_short_circuits {Env : Type} (C : Collabs Env)
    (query : Option String) (fuel iteration : Nat) (msgs : List Message)
    (env : Env)
    (h : pyTruthy (C.check_for_final_answer
      (loop_iteration C query iteration msgs env).response
      (loop_iteration C query iteration msgs env).env) = true) :
    runLoop C query (fuel + 1) iteration msgs env =
      ⟨some ((C.check_for_final_answer
          (loop_iteration C query iteration msgs env).response
          (loop_iteration C query iteration msgs env).env).getD ("")),
        (loop_iteration C query iteration msgs env).msgs,
        (loop_iteration C query iteration msgs env).env,
        (loop_iteration C query iteration msgs env).events ++
          [Event.logFinalAnswer ((C.check_for_final_answer
            (loop_iteration C query iteration msgs env).response
            (loop_iteration C query iteration msgs env).env).getD (""))]⟩ ∧
    llmCallCount (runLoop C query (fuel + 1) iteration msgs env).events = 1 ∧
    runLoop C query (fuel + 1) iteration msgs env =
      runLoop C query 1 iteration msgs env := by
  have mk : ∀ f : Nat, runLoop C query (f + 1) iteration msgs env =
      ⟨some ((C.check_for_final_answer
          (loop_iteration C query iteration msgs env).response
          (loop_iteration C query iteration msgs env).env).getD ("")),
        (loop_iteration C query iteration msgs env).msgs,
        (loop_iteration C query iteration msgs env).env,
        (loop_iteration C query iteration msgs env).events ++
          [Event.logFinalAnswer ((C.check_for_final_answer
            (loop_iteration C query iteration msgs env).response
            (loop_iteration C query iteration msgs env).env).getD (""))]⟩ := by
    intro f
    simp only [runLoop]
    rw [if_pos h]
  refine ⟨mk fuel, ?_, (mk fuel).trans (mk 0).symm⟩
  rw [mk fuel]
  show llmCallCount ((loop_iteration C query iteration msgs env).events ++ _) = 1
  rw [llmCallCount_append, loop_iteration_llmCallCount]
  rfl

/-- Witness for C4: with a collaborator whose check always fires, five
units of extra fuel change nothing and one root-model call happens. -/
theorem c4_final_answer_short_circuits_witness :
    runLoop finalCollabs (some ("q")) (5 + 1) 0 [] () =
      runLoop finalCollabs (some ("q")) 1 0 [] () ∧
    llmCallCount (runLoop finalCollabs (some ("q")) (5 + 1) 0 [] ()).events = 1 :=
  ⟨(c4_final_answer_short_circuits finalCollabs (some ("q")) 5 0 [] ()
      (by decide)).2.2,
   (c4_final_answer_short_circuits finalCollabs (some ("q")) 5 0 [] ()
      (by decide)).2.1⟩

/-- C5: when the response of an iteration carries code fragments, the
persisted conversation grows by exactly one assistant message holding the
raw response, followed by exactly one user message per fragment in
fragment order, each built by `tool_response_content` (so labelling the
truncated stdout and stderr of that fragment's execution result); the
trace of the iteration is the root-model call followed by one `codeExec`
event per fragment in source order with no root-model call among them, and
the whole iteration's events precede all later events of the loop. -/
theorem c5_code_results_folded {Env : Type} (C : Collabs Env)
    (query : Option String) (fuel iteration : Nat) (msgs : List Message)
    (env : Env) (code_blocks : List String)
    (h : C.find_code_blocks
      (loop_iteration C query iteration msgs env).response = some code_blocks) :
    ∃ rs : List ExecutionResult,
      rs.length = code_blocks.length ∧
      (loop_iteration C query iteration msgs env).msgs =
        msgs ++ Message.mk ("assistant")
            ((loop_iteration C query iteration msgs env).response) ::
          rs.map (fun r =>
            Message.mk ("user") (tool_response_content r.stdout r.stderr)) ∧
      (loop_iteration C query iteration msgs env).events =
        Event.llmCall (loop_iteration C query iteration msgs env).llmInput
            ((loop_iteration C query iteration msgs env).response) ::
          List.zipWith (fun c r => Event.codeExec c r) code_blocks rs ∧
      llmCallCount
        (List.zipWith (fun c r => Event.codeExec c r) code_blocks rs) = 0 ∧
      ∃ rest,
        (runLoop C query (fuel + 1) iteration msgs env).events =
          (loop_iteration C query iteration msgs env).events ++ rest := by
  obtain ⟨hin, hresp⟩ := loop_iteration_request C query iteration msgs env
  have h2 := h
  rw [hresp] at h2
  obtain ⟨rs, hlen, hmsgs, hevs⟩ := exec_blocks_spec C code_blocks env
  refine ⟨rs, hlen, ?_, ?_, ?_,
    runLoop_succ_events C query fuel iteration msgs env⟩
  · simp only [loop_iteration, h2]
    simp [process_code_with_logging, hmsgs]
  · simp only [loop_iteration, h2]
    simp [process_code_with_logging, hevs]
  · rw [← hevs]
    exact exec_blocks_no_llmCall C code_blocks env

/-- Witness for C5: a concrete run whose responses carry two fragments
folds exactly two labelled user messages after the raw assistant
message. -/
theorem c5_code_results_folded_witness :
    ∃ rs : List ExecutionResult,
      rs.length = 2 ∧
      (loop_iteration codeCollabs (some ("q")) 0 [] ()).msgs =
        [] ++ Message.mk ("assistant")
            ((loop_iteration codeCollabs (some ("q")) 0 [] ()).response) ::
          rs.map (fun r =>
            Message.mk ("user") (tool_response_content r.stdout r.stderr)) := by
  obtain ⟨rs, hlen, hmsgs, _, _, _⟩ :=
    c5_code_results_folded codeCollabs (some ("q")) 0 0 [] ()
      (["print(1)", "print(2)"]) rfl
  exact ⟨rs, hlen.trans rfl, hmsgs⟩

/-- C6: when the response of an iteration carries no code fragments, the
persisted conversation grows by exactly one assistant message whose
content is the response wrapped with the framing text
`You responded with:` (which differs from the raw response), no user
message is appended for that response, no code executes, and the sandbox
state is unchanged. -/
theorem c6_prose_wrapped {Env : Type} (C : Collabs Env)
    (query : Option String) (iteration : Nat) (msgs : List Message)
    (env : Env)
    (h : C.find_code_blocks
      (loop_iteration C query iteration msgs env).response = none) :
    (loop_iteration C query iteration msgs env).msgs =
      msgs ++ [Message.mk ("assistant") ("You responded with:\n" ++
        (loop_iteration C query iteration msgs env).response)] ∧
    ("You responded with:\n" ++
        (loop_iteration C query iteration msgs env).response) ≠
      (loop_iteration C query iteration msgs env).response ∧
    (loop_iteration C query iteration msgs env).events =
      [Event.llmCall (loop_iteration C query iteration msgs env).llmInput
        ((loop_iteration C query iteration msgs env).response)] ∧
    (loop_iteration C query iteration msgs env).env = env := by
  obtain ⟨hin, hresp⟩ := loop_iteration_request C query iteration msgs env
  have h2 := h
  rw [hresp] at h2
  refine ⟨?_, wrap_ne _, ?_, ?_⟩
  · simp only [loop_iteration, h2]
  · simp only [loop_iteration, h2]
  · simp only [loop_iteration, h2]

/-- Witness for C6: a concrete prose-only iteration appends exactly the
wrapped assistant message. -/
theorem c6_prose_wrapped_witness :
    (loop_iteration proseCollabs (some ("q")) 0 [] ()).msgs =
      [] ++ [Message.mk ("assistant") ("You responded with:\n" ++ "resp")] :=
  (c6_prose_wrapped proseCollabs (some ("q")) 0 [] () rfl).1

/-- C7: each iteration requests the root-model completion over the
persisted conversation plus one instruction built fresh by
`next_action_prompt` from the query and the current iteration index; the
instruction appears only in the transient request input (the head event of
the loop records exactly that input), and the persisted conversation after
the iteration is the old conversation extended only by the documented
assistant/user appends — the wrapped assistant message when no fragments
are present, the raw assistant message followed by the execution result
messages otherwise. -/
theorem c7_instruction_not_persisted {Env : Type} (C : Collabs Env)
    (query : Option String) (fuel iteration : Nat) (msgs : List Message)
    (env : Env) :
    (loop_iteration C query iteration msgs env).llmInput =
      msgs ++ [C.next_action_prompt query iteration false] ∧
    (loop_iteration C query iteration msgs env).response =
      C.llm_completion (msgs ++ [C.next_action_prompt query iteration false]) ∧
    (loop_iteration C query iteration msgs env).msgs =
      msgs ++ (match C.find_code_blocks
          ((loop_iteration C query iteration msgs env).response) with
        | none => [Message.mk ("assistant") ("You responded with:\n" ++
            (loop_iteration C query iteration msgs env).response)]
        | some code_blocks => Message.mk ("assistant")
              ((loop_iteration C query iteration msgs env).response) ::
            (exec_blocks C env code_blocks).2.1) ∧
    (runLoop C query (fuel + 1) iteration msgs env).events.head? =
      some (Event.llmCall
        (msgs ++ [C.next_action_prompt query iteration false])
        ((loop_iteration C query iteration msgs env).response)) := by
  obtain ⟨hin, hresp⟩ := loop_iteration_request C query iteration msgs env
  refine ⟨hin, hresp, ?_, ?_⟩
  · rw [hresp]
    cases h : C.find_code_blocks (C.llm_completion
        (msgs ++ [C.next_action_prompt query iteration false])) with
    | none => simp only [loop_iteration, h]
    | some code_blocks =>
      simp only [loop_iteration, h]
      simp [process_code_with_logging]
  · obtain ⟨rest, hrest⟩ := runLoop_succ_events C query fuel iteration msgs env
    obtain ⟨tail, hev, _, _⟩ := loop_iteration_events C query iteration msgs env
    rw [hrest, hev, hin]
    rfl

/-- C8: when the packager faults on an unrecognized context shape,
`completion` propagates the descriptive context error as its result and
the trace records no root-model call: the fault precedes any use of the
LLM transport collaborator. -/
theorem c8_malformed_context_fails_fast {Env : Type} (C : Collabs Env)
    (max_iterations : Nat) (d : String) (query : Option String) :
    (completion C max_iterations (ContextInput.unrecognized d) query).result =
      .error (.contextError ("Unsupported context type: " ++ d)) ∧
    llmCallCount (completion C max_iterations
      (ContextInput.unrecognized d) query).trace = 0 :=
  ⟨rfl, rfl⟩

/-- C9: with `max_iterations = 0` on a well-formed context, `completion`
performs the setup (the query-start log is emitted and the sandbox is
built), makes no root-model call, and ends with the `NameError` on the
loop variable `iteration` raised while building the forced instruction:
the run raises instead of returning an answer. -/
theorem c9_zero_iterations_nameerror {Env : Type} (C : Collabs Env)
    (context : ContextInput) (query : Option String)
    (context_data : Structured) (context_str : String)
    (hctx : convert_context_for_repl context = .ok (context_data, context_str)) :
    (completion C 0 context query).result = .error (.nameError ("iteration")) ∧
    llmCallCount (completion C 0 context query).trace = 0 ∧
    (completion C 0 context query).trace =
      [Event.logQueryStart (query.getD C.DEFAULT_QUERY)] ∧
    (completion C 0 context query).env =
      some (C.repl_env_init context_data context_str) := by
  simp only [completion, hctx]
  exact ⟨rfl, rfl, rfl, rfl⟩

/-- Witness for C9: the concrete zero-iteration run raises the name
error. -/
theorem c9_zero_iterations_nameerror_witness :
    (completion proseCollabs 0 (ContextInput.ofString ("ctx"))
      (some ("q"))).result = .error (.nameError ("iteration")) :=
  (c9_zero_iterations_nameerror proseCollabs (ContextInput.ofString ("ctx"))
    (some ("q")) Structured.noContext ("ctx") rfl).1

/-- C10: in a run called with `query = None`, the stored query and the
query logged at query start are `DEFAULT_QUERY`, yet every root-model call
of the run — per-iteration and forced alike — is requested over a
conversation extended with an instruction built by `next_action_prompt`
applied to `None`: the default query is never substituted into the
instructions. -/
theorem c10_none_query_default_only_logged {Env : Type} (C : Collabs Env)
    (max_iterations : Nat) (context : ContextInput) :
    (completion C max_iterations context none).query = C.DEFAULT_QUERY ∧
    (completion C max_iterations context none).trace.head? =
      some (Event.logQueryStart C.DEFAULT_QUERY) ∧
    ∀ e ∈ (completion C max_iterations context none).trace,
      instructionShaped C none e := by
  cases hc : convert_context_for_repl context with
  | error msg =>
    simp only [completion, hc]
    refine ⟨rfl, rfl, ?_⟩
    intro ev hev
    simp only [List.mem_singleton] at hev
    intro input response heq
    rw [hev] at heq
    cases heq
  | ok p =>
    obtain ⟨context_data, context_str⟩ := p
    simp only [completion, hc]
    cases hres : (runLoop C none max_iterations 0 C.build_system_prompt
        (C.repl_env_init context_data context_str)).res with
    | some a =>
      refine ⟨rfl, rfl, ?_⟩
      intro ev hev
      rcases List.mem_append.mp hev with h1 | h1
      · simp only [List.mem_singleton] at h1
        intro input response heq
        rw [h1] at heq
        cases heq
      · exact runLoop_events_shaped C none max_iterations 0
          C.build_system_prompt (C.repl_env_init context_data context_str)
          ev h1
    | none =>
      by_cases hz : max_iterations = 0
      · rw [if_pos hz]
        refine ⟨rfl, rfl, ?_⟩
        intro ev hev
        rcases List.mem_append.mp hev with h1 | h1
        · simp only [List.mem_singleton] at h1
          intro input response heq
          rw [h1] at heq
          cases heq
        · exact runLoop_events_shaped C none max_iterations 0
            C.build_system_prompt (C.repl_env_init context_data context_str)
            ev h1
      · rw [if_neg hz]
        refine ⟨rfl, rfl, ?_⟩
        intro ev hev
        simp only [List.mem_append, List.mem_cons, List.mem_singleton,
          List.not_mem_nil, or_false] at hev
        rcases hev with (h1 | h1) | h1 | h1
        · intro input response heq
          rw [h1] at heq
          cases heq
        · exact runLoop_events_shaped C none max_iterations 0
            C.build_system_prompt (C.repl_env_init context_data context_str)
            ev h1
        · intro input response heq
          rw [h1] at heq
          injection heq with hinp hre
          exact ⟨(runLoop C none max_iterations 0 C.build_system_prompt
              (C.repl_env_init context_data context_str)).msgs,
            max_iterations - 1, true, hinp.symm⟩
        · intro input response heq
          rw [h1] at heq
          cases heq

/-- Witness for C10: in a concrete run with no query, the stored query is
the default, yet the first root-model call's input ends in the instruction
built from `none`. -/
theorem c10_none_query_default_only_logged_witness :
    (completion proseCollabs 1 (ContextInput.ofString ("ctx")) none).query =
      proseCollabs.DEFAULT_QUERY ∧
    instructionShaped proseCollabs none
      (Event.llmCall ([Message.mk ("system") ("sys")] ++
        [proseCollabs.next_action_prompt none 0 false]) ("resp")) := by
  have h := c10_none_query_default_only_logged proseCollabs 1
    (ContextInput.ofString ("ctx"))
  refine ⟨h.1, h.2.2 _ ?_⟩
  decide

end RlmDemo
